import Mathlib

/-!
Verification of the scoped-resource wrapper `AzureBlobStorageConnection`
(src/pdc/azure_BlobStorageConnection.py) against its specification.

The Python class is a context manager: `__init__` stores an endpoint URL and a
credential and sets `blob_service_client = None`; `__enter__` constructs a
`BlobServiceClient(storage_url, credential=credential)`, stores it, prints
"open connection" and returns it; `__exit__` calls
`self.blob_service_client.close()` and then prints "close connection".

The embedding models the external SDK as an oracle (`SDK`): its client
constructor and its `close` may each succeed or raise, which is how invalid
credentials and close failures are represented.  Every operation returns the
updated object state, a result (`Except PyErr`) and the list of observable
events it emitted (SDK calls and `print` output), in order.
-/

/-- Python-level errors relevant to this wrapper.  `attributeError` is what
CPython raises when a method is invoked on `None` (`__exit__` with no stored
client); the SDK surfaces construction and close failures; `valueError`
stands for an arbitrary exception raised by a scope body. -/
inductive PyErr where
  | attributeError (msg : String)
  | sdkConstructError (msg : String)
  | sdkCloseError (msg : String)
  | valueError (msg : String)
deriving DecidableEq, Repr

/-- Client handles are identified by a number chosen by the SDK oracle. -/
abbrev Handle := Nat

/-- Observable events: the SDK constructor call (recording the exact arguments
passed), a `print` to stdout, and the SDK `close` call on a handle. -/
inductive Event where
  | sdkConstruct (url : String) (cred : String)
  | print (s : String)
  | sdkClose (h : Handle)
deriving DecidableEq, Repr

/-- The external SDK as an oracle.  `constructResult url cred n` is the outcome
of the n-th `BlobServiceClient(url, credential=cred)` call (the index lets the
oracle hand out fresh handles); `closeResult h` is the outcome of
`client.close()` on handle `h`. -/
structure SDK where
  constructResult : String → String → Nat → Except PyErr Handle
  closeResult : Handle → Except PyErr Unit

/-- The object state of `AzureBlobStorageConnection`: the three instance
attributes set by `__init__`.  `blob_service_client = none` is Python `None`. -/
structure AzureBlobStorageConnection where
  storage_url : String
  credential : String
  blob_service_client : Option Handle
deriving DecidableEq, Repr

namespace AzureBlobStorageConnection

/-- `__init__(self, storage_url, credential)`: stores both arguments and sets
`blob_service_client = None`.  It makes no SDK call and emits no event. -/
def init (storage_url credential : String) :
    AzureBlobStorageConnection × List Event :=
  ({ storage_url := storage_url, credential := credential,
     blob_service_client := none }, [])

/-- `__enter__(self)`: calls
`BlobServiceClient(self.storage_url, credential=self.credential)`.  If the SDK
constructor raises, the assignment never happens and the error propagates; on
success the handle is stored, "open connection" is printed and the same handle
is returned. -/
def enter (sdk : SDK) (s : AzureBlobStorageConnection) (k : Nat) :
    AzureBlobStorageConnection × Except PyErr Handle × List Event :=
  match sdk.constructResult s.storage_url s.credential k with
  | .error e => (s, .error e, [.sdkConstruct s.storage_url s.credential])
  | .ok h =>
      ({ s with blob_service_client := some h }, .ok h,
       [.sdkConstruct s.storage_url s.credential, .print "open connection"])

/-- `__exit__(self, exc_type, exc_value, traceback)`: calls
`self.blob_service_client.close()` and then prints "close connection".  When
`blob_service_client` is `None`, the attribute access on `None` raises
`AttributeError`.  A `close` failure propagates before the print runs.  The
method never mutates the object and returns `None` (so it never suppresses a
scope-body exception). -/
def exit (sdk : SDK) (s : AzureBlobStorageConnection) :
    AzureBlobStorageConnection × Except PyErr Unit × List Event :=
  match s.blob_service_client with
  | none => (s, .error (.attributeError "NoneType has no attribute close"), [])
  | some h =>
      match sdk.closeResult h with
      | .error e => (s, .error e, [.sdkClose h])
      | .ok _ => (s, .ok (), [.sdkClose h, .print "close connection"])

/-- Python `with` semantics specialised to this class: run `__enter__`; if it
raises, propagate without running `__exit__`.  Otherwise run the body on the
returned handle, then run `__exit__` on every exit path.  If `__exit__` itself
raises, that error propagates; otherwise, since `__exit__` returns `None`
(falsy), a body exception re-propagates to the caller. -/
def withStmt (sdk : SDK) (s : AzureBlobStorageConnection) (k : Nat)
    (body : Handle → Except PyErr Unit) :
    AzureBlobStorageConnection × Except PyErr Unit × List Event :=
  match enter sdk s k with
  | (s1, .error e, tr) => (s1, .error e, tr)
  | (s1, .ok h, tr1) =>
      match body h with
      | .ok _ =>
          match exit sdk s1 with
          | (s2, r2, tr2) => (s2, r2, tr1 ++ tr2)
      | .error eb =>
          match exit sdk s1 with
          | (s2, .error e2, tr2) => (s2, .error e2, tr1 ++ tr2)
          | (s2, .ok _, tr2) => (s2, .error eb, tr1 ++ tr2)

/-- One observable operation on a connection object, for frame reasoning over
arbitrary call sequences. -/
inductive Op where
  | enterOp (k : Nat)
  | exitOp

/-- Apply one operation to the object state, discarding result and trace. -/
def runOp (sdk : SDK) (s : AzureBlobStorageConnection) : Op →
    AzureBlobStorageConnection
  | .enterOp k => (enter sdk s k).1
  | .exitOp => (exit sdk s).1

/-- Apply a sequence of enter/exit operations to the object state. -/
def runOps (sdk : SDK) (s : AzureBlobStorageConnection) :
    List Op → AzureBlobStorageConnection
  | [] => s
  | op :: ops => runOps sdk (runOp sdk s op) ops

end AzureBlobStorageConnection

open AzureBlobStorageConnection

/-- An SDK oracle whose constructor always succeeds, handing out the call
index as a fresh handle, and whose `close` always succeeds. -/
def sdkOk : SDK where
  constructResult := fun _ _ k => .ok k
  closeResult := fun _ => .ok ()

/-- An SDK oracle whose constructor always raises (invalid credential). -/
def sdkBadCred : SDK where
  constructResult := fun _ _ _ => .error (.sdkConstructError "invalid credential")
  closeResult := fun _ => .ok ()

/-- An SDK oracle whose constructor succeeds but whose `close` raises. -/
def sdkCloseFail : SDK where
  constructResult := fun _ _ k => .ok k
  closeResult := fun _ => .error (.sdkCloseError "close failed")

/-- The freshly constructed object of the spec scenario:
`ConnectionContext("https://acct.blob.example", "validkey")`. -/
def s0 : AzureBlobStorageConnection :=
  (init "https://acct.blob.example" "validkey").1

/-- A handle stored after a successful enter on the scenario state. -/
def s1 : AzureBlobStorageConnection := (enter sdkOk s0 0).1

/-- Whether an event is a log (print) event, as opposed to an SDK call. -/
def isLogEvent : Event → Bool
  | .print _ => true
  | _ => false

/-- C1: for every scope use whose enter succeeds (and whose close succeeds),
`__exit__` runs on every exit path, the stored client's `close` is called
exactly once, and an exception raised by the scope body re-propagates to the
caller (exit returns `None`, so it never suppresses it); a successful body
yields a successful scope. -/
theorem C1_scope_exit_guarantee (sdk : SDK) (s : AzureBlobStorageConnection)
    (k : Nat) (body : Handle → Except PyErr Unit) (h : Handle)
    (henter : sdk.constructResult s.storage_url s.credential k = Except.ok h)
    (hclose : sdk.closeResult h = Except.ok ()) :
    (withStmt sdk s k body).2.2.count (Event.sdkClose h) = 1
    ∧ (∀ eb, body h = Except.error eb →
        (withStmt sdk s k body).2.1 = Except.error eb)
    ∧ (body h = Except.ok () →
        (withStmt sdk s k body).2.1 = Except.ok ()) := by
  cases hb : body h with
  | ok u =>
      simp [withStmt, enter, exit, henter, hclose, hb, List.count_cons]
  | error eb =>
      simp [withStmt, enter, exit, henter, hclose, hb, List.count_cons]

theorem C1_scope_exit_guarantee_witness :
    (withStmt sdkOk s0 0 (fun _ => Except.error (PyErr.valueError "boom"))).2.1
      = Except.error (PyErr.valueError "boom")
    ∧ (withStmt sdkOk s0 0
        (fun _ => Except.error (PyErr.valueError "boom"))).2.2.count
        (Event.sdkClose 0) = 1 :=
  ⟨(C1_scope_exit_guarantee sdkOk s0 0
      (fun _ => Except.error (PyErr.valueError "boom")) 0 rfl rfl).2.1
      (PyErr.valueError "boom") rfl,
   (C1_scope_exit_guarantee sdkOk s0 0
      (fun _ => Except.error (PyErr.valueError "boom")) 0 rfl rfl).1⟩

/-- C2 counterexample: on the spec scenario, after enter and exit the client
field still holds the handle (exit does not reset it to `None`), and a second
exit without re-entering succeeds instead of failing. -/
theorem C2_counterexample :
    (exit sdkOk (exit sdkOk s1).1).2.1 = Except.ok ()
    ∧ (exit sdkOk s1).1.blob_service_client = some 0 :=
  ⟨rfl, rfl⟩

/-- C2 amended: the client field is `None` after construction and non-null
after a successful enter, but `__exit__` leaves the object state entirely
unchanged (the handle stays stored), so a second exit without re-entering
calls `close` again on the same client and succeeds rather than failing. -/
theorem C2_client_lifetime (sdk : SDK) (url cred : String)
    (s : AzureBlobStorageConnection) (k : Nat) (h : Handle)
    (henter : sdk.constructResult s.storage_url s.credential k = Except.ok h)
    (hclose : sdk.closeResult h = Except.ok ()) :
    (init url cred).1.blob_service_client = none
    ∧ (enter sdk s k).1.blob_service_client = some h
    ∧ (exit sdk (enter sdk s k).1).1 = (enter sdk s k).1
    ∧ (exit sdk (exit sdk (enter sdk s k).1).1).2.1 = Except.ok () := by
  refine ⟨rfl, ?_, ?_, ?_⟩ <;> simp [init, enter, exit, henter, hclose]

theorem C2_client_lifetime_witness :
    (init "https://acct.blob.example" "validkey").1.blob_service_client = none
    ∧ (enter sdkOk s0 0).1.blob_service_client = some 0
    ∧ (exit sdkOk (enter sdkOk s0 0).1).1 = (enter sdkOk s0 0).1
    ∧ (exit sdkOk (exit sdkOk (enter sdkOk s0 0).1).1).2.1 = Except.ok () :=
  C2_client_lifetime sdkOk "https://acct.blob.example" "validkey" s0 0 0 rfl rfl

/-- C3: `__exit__` on an object whose client field is `None` (enter never
succeeded since construction) raises the `AttributeError` from calling
`close` on `None` — the IllegalStateError-class failure — rather than
silently doing nothing. -/
theorem C3_exit_without_enter (sdk : SDK) (s : AzureBlobStorageConnection)
    (hn : s.blob_service_client = none) :
    (exit sdk s).2.1
      = Except.error (PyErr.attributeError "NoneType has no attribute close")
    ∧ (exit sdk s).2.2 = [] := by
  simp [exit, hn]

theorem C3_exit_without_enter_witness :
    (exit sdkOk s0).2.1
      = Except.error (PyErr.attributeError "NoneType has no attribute close")
    ∧ (exit sdkOk s0).2.2 = [] :=
  C3_exit_without_enter sdkOk s0 rfl

/-- C4 counterexample: when `close` raises during exit on the entered
scenario state, the error propagates but the "close connection" log event is
never emitted — the trace is just the close call, refuting "logging happens
before propagation". -/
theorem C4_counterexample :
    (exit sdkCloseFail (enter sdkCloseFail s0 0).1).2.1
      = Except.error (PyErr.sdkCloseError "close failed")
    ∧ (exit sdkCloseFail (enter sdkCloseFail s0 0).1).2.2.count
        (Event.print "close connection") = 0 :=
  ⟨rfl, rfl⟩

/-- C4 amended: if the stored client's `close` raises during exit, the error
is not suppressed and propagates to the caller, but the "close connection"
log event is not emitted — the print follows the `close()` call, so it is
skipped when `close` raises. -/
theorem C4_close_error_propagates (sdk : SDK)
    (s : AzureBlobStorageConnection) (h : Handle) (e : PyErr)
    (hc : s.blob_service_client = some h)
    (hcl : sdk.closeResult h = Except.error e) :
    (exit sdk s).2.1 = Except.error e
    ∧ (exit sdk s).2.2 = [Event.sdkClose h] := by
  simp [exit, hc, hcl]

theorem C4_close_error_propagates_witness :
    (exit sdkCloseFail (enter sdkCloseFail s0 0).1).2.1
      = Except.error (PyErr.sdkCloseError "close failed")
    ∧ (exit sdkCloseFail (enter sdkCloseFail s0 0).1).2.2
      = [Event.sdkClose 0] :=
  C4_close_error_propagates sdkCloseFail (enter sdkCloseFail s0 0).1 0
    (PyErr.sdkCloseError "close failed") rfl rfl

/-- C5: a successful enter calls the SDK constructor with exactly the stored
endpoint and credential (first and only construct event), stores the returned
handle in the client field, and returns that same handle to the caller. -/
theorem C5_enter_constructs_stores_returns (sdk : SDK)
    (s : AzureBlobStorageConnection) (k : Nat) (h : Handle)
    (henter : sdk.constructResult s.storage_url s.credential k = Except.ok h) :
    (enter sdk s k).1.blob_service_client = some h
    ∧ (enter sdk s k).2.1 = Except.ok h
    ∧ (enter sdk s k).2.2
      = [Event.sdkConstruct s.storage_url s.credential,
         Event.print "open connection"] := by
  simp [enter, henter]

theorem C5_enter_constructs_stores_returns_witness :
    (enter sdkOk s0 0).1.blob_service_client = some 0
    ∧ (enter sdkOk s0 0).2.1 = Except.ok 0
    ∧ (enter sdkOk s0 0).2.2
      = [Event.sdkConstruct "https://acct.blob.example" "validkey",
         Event.print "open connection"] :=
  C5_enter_constructs_stores_returns sdkOk s0 0 0 rfl

/-- Helper: a successful or failing enter never changes the stored endpoint
or credential. -/
theorem enter_preserves_params (sdk : SDK) (s : AzureBlobStorageConnection)
    (k : Nat) :
    (enter sdk s k).1.storage_url = s.storage_url
    ∧ (enter sdk s k).1.credential = s.credential := by
  cases hc : sdk.constructResult s.storage_url s.credential k <;>
    simp [enter, hc]

/-- Helper: `__exit__` never mutates the object state at all, on any of its
three paths (no client, close failure, close success). -/
theorem exit_state_unchanged (sdk : SDK) (s : AzureBlobStorageConnection) :
    (exit sdk s).1 = s := by
  cases hb : s.blob_service_client with
  | none => simp [exit, hb]
  | some h => cases hc : sdk.closeResult h <;> simp [exit, hb, hc]

/-- C6: when the SDK constructor raises during enter on a fresh object, the
error propagates uncaught, the object state is unchanged (the client field is
still `None`: the assignment never ran), and a subsequent exit fails its
precondition with the `AttributeError` rather than no-oping. -/
theorem C6_enter_failure_leaves_no_client (sdk : SDK)
    (s : AzureBlobStorageConnection) (k : Nat) (e : PyErr)
    (hn : s.blob_service_client = none)
    (hc : sdk.constructResult s.storage_url s.credential k = Except.error e) :
    (enter sdk s k).2.1 = Except.error e
    ∧ (enter sdk s k).1 = s
    ∧ (exit sdk (enter sdk s k).1).2.1
      = Except.error (PyErr.attributeError "NoneType has no attribute close") := by
  refine ⟨?_, ?_, ?_⟩ <;> simp [enter, exit, hn, hc]

theorem C6_enter_failure_leaves_no_client_witness :
    (enter sdkBadCred s0 0).2.1
      = Except.error (PyErr.sdkConstructError "invalid credential")
    ∧ (enter sdkBadCred s0 0).1 = s0
    ∧ (exit sdkBadCred (enter sdkBadCred s0 0).1).2.1
      = Except.error (PyErr.attributeError "NoneType has no attribute close") :=
  C6_enter_failure_leaves_no_client sdkBadCred s0 0
    (PyErr.sdkConstructError "invalid credential") rfl rfl

/-- C7: construction stores the endpoint and credential unchanged, leaves the
client field `None`, and emits no event at all — in particular no SDK
constructor call and no network contact. -/
theorem C7_init_stores_params_only (url cred : String) :
    (init url cred).1.storage_url = url
    ∧ (init url cred).1.credential = cred
    ∧ (init url cred).1.blob_service_client = none
    ∧ (init url cred).2 = [] :=
  ⟨rfl, rfl, rfl, rfl⟩

/-- C8: a fully successful scope use emits exactly this event sequence: the
SDK constructor call, the "open connection" log, the SDK close call, the
"close connection" log — so exactly two log events, open after the client is
constructed, close after the release call, in that order. -/
theorem C8_log_events_in_order (sdk : SDK) (s : AzureBlobStorageConnection)
    (k : Nat) (body : Handle → Except PyErr Unit) (h : Handle)
    (henter : sdk.constructResult s.storage_url s.credential k = Except.ok h)
    (hclose : sdk.closeResult h = Except.ok ())
    (hbody : body h = Except.ok ()) :
    (withStmt sdk s k body).2.2
      = [Event.sdkConstruct s.storage_url s.credential,
         Event.print "open connection",
         Event.sdkClose h,
         Event.print "close connection"]
    ∧ (withStmt sdk s k body).2.2.filter isLogEvent
      = [Event.print "open connection", Event.print "close connection"] := by
  refine ⟨?_, ?_⟩ <;> simp [withStmt, enter, exit, henter, hclose, hbody, isLogEvent]

theorem C8_log_events_in_order_witness :
    (withStmt sdkOk s0 0 (fun _ => Except.ok ())).2.2
      = [Event.sdkConstruct "https://acct.blob.example" "validkey",
         Event.print "open connection",
         Event.sdkClose 0,
         Event.print "close connection"]
    ∧ (withStmt sdkOk s0 0 (fun _ => Except.ok ())).2.2.filter isLogEvent
      = [Event.print "open connection", Event.print "close connection"] :=
  C8_log_events_in_order sdkOk s0 0 (fun _ => Except.ok ()) 0 rfl rfl rfl

/-- C9: no sequence of enter/exit operations ever modifies the stored
endpoint or credential; only the client field can change. -/
theorem C9_params_frame (sdk : SDK) (s : AzureBlobStorageConnection)
    (ops : List Op) :
    (runOps sdk s ops).storage_url = s.storage_url
    ∧ (runOps sdk s ops).credential = s.credential := by
  induction ops generalizing s with
  | nil => exact ⟨rfl, rfl⟩
  | cons op ops ih =>
      have hstep : (runOp sdk s op).storage_url = s.storage_url
          ∧ (runOp sdk s op).credential = s.credential := by
        cases op with
        | enterOp k => exact enter_preserves_params sdk s k
        | exitOp => rw [runOp, exit_state_unchanged]; exact ⟨rfl, rfl⟩
      have h2 := ih (runOp sdk s op)
      exact ⟨by rw [runOps, h2.1, hstep.1], by rw [runOps, h2.2, hstep.2]⟩

/-- C10: entering a second time without an intervening exit unconditionally
overwrites the stored client handle with the result of a fresh SDK
constructor call, and the previous client is never closed (no close event is
emitted by enter). -/
theorem C10_reenter_overwrites_without_close (sdk : SDK)
    (s : AzureBlobStorageConnection) (k1 k2 : Nat) (h1 h2 : Handle)
    (h1e : sdk.constructResult s.storage_url s.credential k1 = Except.ok h1)
    (h2e : sdk.constructResult s.storage_url s.credential k2 = Except.ok h2) :
    (enter sdk s k1).1.blob_service_client = some h1
    ∧ (enter sdk (enter sdk s k1).1 k2).1.blob_service_client = some h2
    ∧ ∀ h, Event.sdkClose h ∉ (enter sdk (enter sdk s k1).1 k2).2.2 := by
  refine ⟨?_, ?_, ?_⟩ <;> simp [enter, h1e, h2e]

theorem C10_reenter_overwrites_without_close_witness :
    (enter sdkOk s0 0).1.blob_service_client = some 0
    ∧ (enter sdkOk (enter sdkOk s0 0).1 1).1.blob_service_client = some 1
    ∧ Event.sdkClose 0 ∉ (enter sdkOk (enter sdkOk s0 0).1 1).2.2 :=
  ⟨(C10_reenter_overwrites_without_close sdkOk s0 0 1 0 1 rfl rfl).1,
   (C10_reenter_overwrites_without_close sdkOk s0 0 1 0 1 rfl rfl).2.1,
   (C10_reenter_overwrites_without_close sdkOk s0 0 1 0 1 rfl rfl).2.2 0⟩
